import Mathlib

/-!
Shallow embedding of `ui/static/core/js/htmx-hooks.js`.

The file is an IIFE that, when `window.htmx` is truthy, registers three
listeners on `document`:

  * `htmx:send`          — `document.documentElement.classList.add('hx-busy')`
  * `htmx:afterOnLoad`   — `document.documentElement.classList.remove('hx-busy')`
  * `htmx:responseError` — `console.warn('HTMX request failed',
                             e.detail.xhr && e.detail.xhr.status)`

The observable state is the root element class set and the console log.
DOM `classList` is an ordered token set: `add` appends the token when absent,
`remove` deletes every occurrence of the token.  Property access on an
undefined/null JavaScript value throws a `TypeError`, which we model with
`Except`; the `&&` guard short-circuits, so a missing `xhr` field (or a
missing `status` field on it) yields the JavaScript value `undefined` as the
second argument of `console.warn` rather than a throw.
-/

namespace HtmxHooks

/-- The fixed CSS class name used by the hooks. -/
def busyClass : String := "hx-busy"

/-- A DOM class list, as the ordered list of tokens on the root element. -/
abbrev ClassList := List String

/-- `classList.add c`: appends the token when it is not already present. -/
def ClassList.add (cl : ClassList) (c : String) : ClassList :=
  if c ∈ cl then cl else cl ++ [c]

/-- `classList.remove c`: deletes every occurrence of the token. -/
def ClassList.remove (cl : ClassList) (c : String) : ClassList :=
  cl.filter (fun x => x != c)

/-- The JavaScript values that can appear as the second `console.warn`
argument: a number, or `undefined` (from the short-circuited `&&`). -/
inductive JsVal where
  | undef
  | num (n : Int)
deriving DecidableEq

/-- The transport handle (`xhr`) carried by an error event; its `status`
field may itself be absent/undefined. -/
structure Xhr where
  status : Option Int
deriving DecidableEq

/-- The `detail` payload of an htmx event; the `xhr` field may be absent. -/
structure EventDetail where
  xhr : Option Xhr
deriving DecidableEq

/-- An event object passed to a listener; `detail` is `none` when the
payload is undefined or null. -/
structure HtmxEvent where
  detail : Option EventDetail
deriving DecidableEq

/-- One entry written to the console warning channel. -/
structure LogEntry where
  message : String
  arg : JsVal
deriving DecidableEq

/-- A thrown JavaScript error. -/
inductive JsError where
  | typeError (msg : String)
deriving DecidableEq

/-- Observable state: the root element class set and the console log. -/
structure State where
  rootClasses : ClassList
  consoleLog : List LogEntry
deriving DecidableEq

/-- Listener for `htmx:send`; the callback ignores its event argument. -/
def sendHandler (_e : HtmxEvent) (s : State) : State :=
  { s with rootClasses := s.rootClasses.add busyClass }

/-- Listener for `htmx:afterOnLoad`; the callback ignores its event
argument. -/
def afterOnLoadHandler (_e : HtmxEvent) (s : State) : State :=
  { s with rootClasses := s.rootClasses.remove busyClass }

/-- Value of `e.detail.xhr && e.detail.xhr.status` once `e.detail` is known
to be an object: `undefined` when `xhr` is absent (short-circuit) or when
`xhr.status` is absent, otherwise the numeric status. -/
def xhrStatusArg (d : EventDetail) : JsVal :=
  match d.xhr with
  | none => JsVal.undef
  | some x =>
    match x.status with
    | none => JsVal.undef
    | some n => JsVal.num n

/-- Listener for `htmx:responseError`.  Evaluating `e.detail.xhr` throws a
`TypeError` when `e.detail` is undefined/null; otherwise exactly one entry
is appended to the console log. -/
def responseErrorHandler (e : HtmxEvent) (s : State) : Except JsError State :=
  match e.detail with
  | none =>
    Except.error (JsError.typeError "Cannot read properties of undefined (reading xhr)")
  | some d =>
    Except.ok { s with consoleLog :=
      s.consoleLog ++ [{ message := "HTMX request failed", arg := xhrStatusArg d }] }

/-- The three event names the IIFE can bind. -/
inductive EventName where
  | send
  | afterOnLoad
  | responseError
deriving DecidableEq

/-- The IIFE: when `window.htmx` is falsy it returns before registering
anything; otherwise it registers the three listeners in source order.  No
code path throws. -/
def init (htmxPresent : Bool) : Except JsError (List EventName) :=
  if htmxPresent then
    Except.ok [EventName.send, EventName.afterOnLoad, EventName.responseError]
  else
    Except.ok []

/-- A dispatched event: which listener fires, with the event object the
dispatcher hands to it. -/
inductive Ev where
  | send (e : HtmxEvent)
  | afterOnLoad (e : HtmxEvent)
  | responseError (e : HtmxEvent)
deriving DecidableEq

/-- Run the listener registered for one dispatched event. -/
def step (s : State) (ev : Ev) : Except JsError State :=
  match ev with
  | Ev.send e => Except.ok (sendHandler e s)
  | Ev.afterOnLoad e => Except.ok (afterOnLoadHandler e s)
  | Ev.responseError e => responseErrorHandler e s

/-- Browser dispatch semantics: an exception escaping a listener is reported
and does not abort later dispatches.  The error handler throws before any
mutation, so on a throw the state is unchanged. -/
def applyEvent (s : State) (ev : Ev) : State :=
  match step s ev with
  | Except.ok s2 => s2
  | Except.error _ => s

/-- Dispatch a sequence of events in order. -/
def runEvents (evs : List Ev) (s : State) : State :=
  evs.foldl applyEvent s

/-- A state with no classes and an empty log, for concrete evaluation. -/
def emptyState : State := { rootClasses := [], consoleLog := [] }

/-- An event object with an undefined payload, for concrete evaluation. -/
def ev0 : HtmxEvent := { detail := none }

theorem ClassList.mem_add_self (cl : ClassList) (c : String) : c ∈ cl.add c := by
  unfold ClassList.add
  split
  · assumption
  · simp

theorem ClassList.not_mem_remove_self (cl : ClassList) (c : String) :
    c ∉ cl.remove c := by
  simp [ClassList.remove]

theorem ClassList.add_of_mem {cl : ClassList} {c : String} (h : c ∈ cl) :
    cl.add c = cl := by
  simp [ClassList.add, h]

theorem ClassList.remove_of_not_mem {cl : ClassList} {c : String} (h : c ∉ cl) :
    cl.remove c = cl := by
  rw [ClassList.remove, List.filter_eq_self]
  intro a ha
  simp only [bne_iff_ne]
  exact fun hac => h (hac ▸ ha)

theorem ClassList.mem_add_iff {cl : ClassList} {a c : String} (h : a ≠ c) :
    a ∈ cl.add c ↔ a ∈ cl := by
  unfold ClassList.add
  split
  · exact Iff.rfl
  · simp [h]

theorem ClassList.mem_remove_iff {cl : ClassList} {a c : String} (h : a ≠ c) :
    a ∈ cl.remove c ↔ a ∈ cl := by
  simp [ClassList.remove, h]

theorem applyEvent_preserves_other (s : State) (ev : Ev) {c : String}
    (h : c ≠ busyClass) :
    (c ∈ (applyEvent s ev).rootClasses ↔ c ∈ s.rootClasses) := by
  cases ev with
  | send e =>
    simpa [applyEvent, step, sendHandler] using ClassList.mem_add_iff h
  | afterOnLoad e =>
    simpa [applyEvent, step, afterOnLoadHandler] using ClassList.mem_remove_iff h
  | responseError e =>
    cases hd : e.detail <;> simp [applyEvent, step, responseErrorHandler, hd]

/-- C1 counterexample: the claim says a dispatch whose `detail` payload is
undefined does not throw; on the code, evaluating `e.detail.xhr` with an
undefined `detail` throws a `TypeError`, so the handler does not return
normally at this concrete input. -/
theorem c1_counterexample :
    responseErrorHandler { detail := none } emptyState =
      Except.error (JsError.typeError "Cannot read properties of undefined (reading xhr)") :=
  rfl

/-- C1 amended: when the detail payload is an empty object (present but
without the `xhr` field) the handler does not throw and appends exactly one
warning entry with the fixed message and the undefined marker; when the
detail payload itself is undefined, the handler throws a `TypeError` and
logs nothing. -/
theorem c1_empty_detail_logged_undefined_detail_throws (s : State) (e : HtmxEvent) :
    (e.detail = some { xhr := none } →
      responseErrorHandler e s =
        Except.ok { s with consoleLog :=
          s.consoleLog ++ [{ message := "HTMX request failed", arg := JsVal.undef }] }) ∧
    (e.detail = none →
      responseErrorHandler e s =
        Except.error (JsError.typeError "Cannot read properties of undefined (reading xhr)")) := by
  constructor
  · intro h
    simp [responseErrorHandler, h, xhrStatusArg]
  · intro h
    simp [responseErrorHandler, h]

/-- C1 witness: the amended theorem evaluated at concrete events over the
empty state. -/
theorem c1_witness :
    responseErrorHandler { detail := some { xhr := none } } emptyState =
      Except.ok { emptyState with consoleLog :=
        [{ message := "HTMX request failed", arg := JsVal.undef }] } ∧
    responseErrorHandler { detail := none } emptyState =
      Except.error (JsError.typeError "Cannot read properties of undefined (reading xhr)") :=
  ⟨(c1_empty_detail_logged_undefined_detail_throws emptyState
      { detail := some { xhr := none } }).1 rfl,
   (c1_empty_detail_logged_undefined_detail_throws emptyState { detail := none }).2 rfl⟩

/-- C2: when `window.htmx` is falsy at initialization, the IIFE registers
zero listeners and raises no exception; moreover for every availability
value registration is all-or-nothing: either no listener or all three, in
source order. -/
theorem c2_absent_htmx_registers_nothing :
    init false = Except.ok ([] : List EventName) ∧
    ∀ b : Bool, init b = Except.ok ([] : List EventName) ∨
      init b = Except.ok [EventName.send, EventName.afterOnLoad, EventName.responseError] := by
  refine ⟨rfl, ?_⟩
  intro b
  cases b
  · exact Or.inl rfl
  · exact Or.inr rfl

/-- C3: for every initial state and every pair of event payloads, the busy
class is on the root element immediately after a `htmx:send` dispatch and
absent immediately after the following `htmx:afterOnLoad` dispatch. -/
theorem c3_send_sets_afterOnLoad_clears (s : State) (e1 e2 : HtmxEvent) :
    busyClass ∈ (applyEvent s (Ev.send e1)).rootClasses ∧
    busyClass ∉ (applyEvent (applyEvent s (Ev.send e1)) (Ev.afterOnLoad e2)).rootClasses := by
  constructor
  · simpa [applyEvent, step, sendHandler] using
      ClassList.mem_add_self s.rootClasses busyClass
  · simpa [applyEvent, step, sendHandler, afterOnLoadHandler] using
      ClassList.not_mem_remove_self (s.rootClasses.add busyClass) busyClass

/-- C4: the send handler leaves the class set unchanged when the busy class
is already present, and the completed handler leaves it unchanged when the
busy class is absent. -/
theorem c4_handlers_idempotent_on_classes (s : State) (e : HtmxEvent) :
    (busyClass ∈ s.rootClasses → (sendHandler e s).rootClasses = s.rootClasses) ∧
    (busyClass ∉ s.rootClasses → (afterOnLoadHandler e s).rootClasses = s.rootClasses) := by
  constructor
  · intro h
    simp [sendHandler, ClassList.add_of_mem h]
  · intro h
    simp [afterOnLoadHandler, ClassList.remove_of_not_mem h]

/-- C4 witness: the idempotence theorem evaluated at concrete states that
do and do not contain the busy class. -/
theorem c4_witness :
    (sendHandler ev0 { rootClasses := ["hx-busy"], consoleLog := [] }).rootClasses =
      ["hx-busy"] ∧
    (afterOnLoadHandler ev0 { rootClasses := ["dark"], consoleLog := [] }).rootClasses =
      ["dark"] :=
  ⟨(c4_handlers_idempotent_on_classes
      { rootClasses := ["hx-busy"], consoleLog := [] } ev0).1 (by decide),
   (c4_handlers_idempotent_on_classes
      { rootClasses := ["dark"], consoleLog := [] } ev0).2 (by decide)⟩

/-- C5: a response-error dispatch whose detail carries an `xhr` with status
500 appends exactly one warning entry holding the literal message and the
value 500, and changes nothing else. -/
theorem c5_status_500_logged (s : State) (e : HtmxEvent)
    (h : e.detail = some { xhr := some { status := some 500 } }) :
    responseErrorHandler e s =
      Except.ok { s with consoleLog :=
        s.consoleLog ++ [{ message := "HTMX request failed", arg := JsVal.num 500 }] } := by
  simp [responseErrorHandler, h, xhrStatusArg]

/-- C5 witness: the theorem evaluated at a concrete 500-status event over
the empty state. -/
theorem c5_witness :
    responseErrorHandler { detail := some { xhr := some { status := some 500 } } }
        emptyState =
      Except.ok { emptyState with consoleLog :=
        [{ message := "HTMX request failed", arg := JsVal.num 500 }] } :=
  c5_status_500_logged emptyState
    { detail := some { xhr := some { status := some 500 } } } rfl

/-- C6: when the detail payload is present but the transport handle is
absent, or the handle is present but its status is absent, the handler does
not throw and appends exactly one entry with the fixed message and the
undefined marker. -/
theorem c6_missing_xhr_or_status_logs_undefined (s : State) (e : HtmxEvent)
    (d : EventDetail) (hd : e.detail = some d)
    (h : d.xhr = none ∨ ∃ x : Xhr, d.xhr = some x ∧ x.status = none) :
    responseErrorHandler e s =
      Except.ok { s with consoleLog :=
        s.consoleLog ++ [{ message := "HTMX request failed", arg := JsVal.undef }] } := by
  rcases h with h | ⟨x, hx, hs⟩
  · simp [responseErrorHandler, hd, xhrStatusArg, h]
  · simp [responseErrorHandler, hd, xhrStatusArg, hx, hs]

/-- C6 witness: the theorem evaluated at a concrete event whose transport
handle is present but carries no status. -/
theorem c6_witness :
    responseErrorHandler { detail := some { xhr := some { status := none } } }
        emptyState =
      Except.ok { emptyState with consoleLog :=
        [{ message := "HTMX request failed", arg := JsVal.undef }] } :=
  c6_missing_xhr_or_status_logs_undefined emptyState
    { detail := some { xhr := some { status := none } } }
    { xhr := some { status := none } } rfl
    (Or.inr ⟨{ status := none }, rfl, rfl⟩)

/-- C7: dispatching a response-error event never changes the root element
class set, so in particular the busy class membership is untouched by the
error handler. -/
theorem c7_error_handler_preserves_classes (s : State) (e : HtmxEvent) :
    (applyEvent s (Ev.responseError e)).rootClasses = s.rootClasses := by
  cases hd : e.detail <;> simp [applyEvent, step, responseErrorHandler, hd]

/-- C8: for every initial state, after the dispatch sequence send, send,
afterOnLoad the busy class is absent: one completed event clears the class
even after two sent events. -/
theorem c8_two_sends_one_complete_clears (s : State) (e1 e2 e3 : HtmxEvent) :
    busyClass ∉
      (runEvents [Ev.send e1, Ev.send e2, Ev.afterOnLoad e3] s).rootClasses := by
  simpa [runEvents, applyEvent, step, sendHandler, afterOnLoadHandler] using
    ClassList.not_mem_remove_self
      ((s.rootClasses.add busyClass).add busyClass) busyClass

/-- C9: every event sequence leaves the membership of every class other
than the busy class unchanged on the root element: the final class set
differs from the initial one at most in the busy class. -/
theorem c9_other_classes_preserved (evs : List Ev) (s : State) (c : String)
    (h : c ≠ busyClass) :
    (c ∈ (runEvents evs s).rootClasses ↔ c ∈ s.rootClasses) := by
  induction evs generalizing s with
  | nil => simp [runEvents]
  | cons ev rest ih =>
    have hstep : runEvents (ev :: rest) s = runEvents rest (applyEvent s ev) := rfl
    rw [hstep]
    exact (ih (applyEvent s ev)).trans (applyEvent_preserves_other s ev h)

/-- C9 witness: the preservation theorem evaluated on a concrete sequence
of all three event kinds over a state carrying an unrelated class. -/
theorem c9_witness :
    ("dark" ∈ (runEvents [Ev.send ev0, Ev.responseError ev0, Ev.afterOnLoad ev0]
        { rootClasses := ["dark"], consoleLog := [] }).rootClasses ↔
      "dark" ∈ ({ rootClasses := ["dark"], consoleLog := [] } : State).rootClasses) :=
  c9_other_classes_preserved [Ev.send ev0, Ev.responseError ev0, Ev.afterOnLoad ev0]
    { rootClasses := ["dark"], consoleLog := [] } "dark" (by decide)

/-- C10: the send and completed handlers never write to the console log,
and their effect on the state is independent of the event payload: any two
payloads produce the same resulting state from the same initial state. -/
theorem c10_payload_independent_and_silent (s : State) (e1 e2 : HtmxEvent) :
    sendHandler e1 s = sendHandler e2 s ∧
    afterOnLoadHandler e1 s = afterOnLoadHandler e2 s ∧
    (sendHandler e1 s).consoleLog = s.consoleLog ∧
    (afterOnLoadHandler e1 s).consoleLog = s.consoleLog :=
  ⟨rfl, rfl, rfl, rfl⟩

end HtmxHooks
